import Mathlib

/-!
# Verification of the outlivion-backend integration layer

Shallow embedding of the repository's service layer:

* `Mercuryo` — the payment client (`src/services/mercuryo.ts`), embedded from
  source.  Byte strings are modelled as `List Nat` of byte values; the
  HMAC-SHA256 used by `verifyWebhookSignature` is implemented in full
  (FIPS 180-4 / RFC 2104) since the source delegates to node's crypto module.
* `Marzban` — the panel client.  Its source file is not part of the source
  tree given here, so its operations are modelled from the specification;
  each such definition says so in its doc comment.
-/

namespace Mercuryo

/-- Truncation to a 32-bit machine word, as node's crypto arithmetic does. -/
def mod32 (x : Nat) : Nat := x % 4294967296

/-- Right rotation of a 32-bit word by `n` places. -/
def rotr32 (n x : Nat) : Nat := mod32 ((x >>> n) ||| (x <<< (32 - n)))

/-- Bitwise complement of a 32-bit word. -/
def not32 (x : Nat) : Nat := x ^^^ 4294967295

/-- SHA-256 round constants (FIPS 180-4, §4.2.2). -/
def shaK : List Nat :=
  [1116352408, 1899447441, 3049323471, 3921009573, 961987163,
   1508970993, 2453635748, 2870763221, 3624381080, 310598401,
   607225278, 1426881987, 1925078388, 2162078206, 2614888103,
   3248222580, 3835390401, 4022224774, 264347078, 604807628,
   770255983, 1249150122, 1555081692, 1996064986, 2554220882,
   2821834349, 2952996808, 3210313671, 3336571891, 3584528711,
   113926993, 338241895, 666307205, 773529912, 1294757372,
   1396182291, 1695183700, 1986661051, 2177026350, 2456956037,
   2730485921, 2820302411, 3259730800, 3345764771, 3516065817,
   3600352804, 4094571909, 275423344, 430227734, 506948616,
   659060556, 883997877, 958139571, 1322822218, 1537002063,
   1747873779, 1955562222, 2024104815, 2227730452, 2361852424,
   2428436474, 2756734187, 3204031479, 3329325298]

/-- SHA-256 initial hash value (FIPS 180-4, §5.3.3). -/
def shaH0 : List Nat :=
  [1779033703, 3144134277, 1013904242, 2773480762,
   1359893119, 2600822924, 528734635, 1541459225]

/-- A natural number as 8 big-endian bytes (the SHA-256 length field). -/
def beBytes8 (n : Nat) : List Nat :=
  [n / 72057594037927936 % 256, n / 281474976710656 % 256,
   n / 1099511627776 % 256, n / 4294967296 % 256,
   n / 16777216 % 256, n / 65536 % 256, n / 256 % 256, n % 256]

/-- A 32-bit word as 4 big-endian bytes. -/
def wordBytes (w : Nat) : List Nat :=
  [w / 16777216 % 256, w / 65536 % 256, w / 256 % 256, w % 256]

/-- SHA-256 message padding: append `0x80`, zeros, then the 64-bit
big-endian bit length, reaching a multiple of 64 bytes. -/
def padMessage (msg : List Nat) : List Nat :=
  let zeros := (64 - (msg.length + 9) % 64) % 64
  msg ++ 0x80 :: List.replicate zeros 0 ++ beBytes8 (8 * msg.length)

/-- Group bytes into big-endian 32-bit words. -/
def bytesToWords : List Nat → List Nat
  | b0 :: b1 :: b2 :: b3 :: rest =>
      (b0 * 16777216 + b1 * 65536 + b2 * 256 + b3) :: bytesToWords rest
  | _ => []

/-- Split a word list into 16-word blocks (fuel-driven so that the kernel
can evaluate it; the fuel is always sufficient for the padded input). -/
def blocksGo : Nat → List Nat → List (List Nat)
  | 0, _ => []
  | _, [] => []
  | fuel + 1, ws => ws.take 16 :: blocksGo fuel (ws.drop 16)

/-- Split a word list into 16-word blocks. -/
def blocks16 (ws : List Nat) : List (List Nat) := blocksGo ws.length ws

/-- Small sigma-0 of the SHA-256 message schedule. -/
def sigmaSmall0 (x : Nat) : Nat := rotr32 7 x ^^^ rotr32 18 x ^^^ (x >>> 3)

/-- Small sigma-1 of the SHA-256 message schedule. -/
def sigmaSmall1 (x : Nat) : Nat := rotr32 17 x ^^^ rotr32 19 x ^^^ (x >>> 10)

/-- Big Sigma-0 of the SHA-256 compression function. -/
def sigmaBig0 (x : Nat) : Nat := rotr32 2 x ^^^ rotr32 13 x ^^^ rotr32 22 x

/-- Big Sigma-1 of the SHA-256 compression function. -/
def sigmaBig1 (x : Nat) : Nat := rotr32 6 x ^^^ rotr32 11 x ^^^ rotr32 25 x

/-- One step of the message-schedule extension: the next word from the last
16, kept most-recent-first. -/
def schedStep (rev : List Nat) : Nat :=
  mod32 (rev.getD 15 0 + sigmaSmall0 (rev.getD 14 0) + rev.getD 6 0 + sigmaSmall1 (rev.getD 1 0))

/-- Extend a 16-word block to the 64-word SHA-256 message schedule. -/
def schedule (block : List Nat) : List Nat :=
  ((List.range 48).foldl (fun rev _ => schedStep rev :: rev) block.reverse).reverse

/-- The eight SHA-256 working variables. -/
structure ShaState where
  a : Nat
  b : Nat
  c : Nat
  d : Nat
  e : Nat
  f : Nat
  g : Nat
  h : Nat
deriving Repr, DecidableEq

/-- A hash value (8 words) as a working state. -/
def toState (hs : List Nat) : ShaState :=
  ⟨hs.getD 0 0, hs.getD 1 0, hs.getD 2 0, hs.getD 3 0,
   hs.getD 4 0, hs.getD 5 0, hs.getD 6 0, hs.getD 7 0⟩

/-- One SHA-256 compression round with round constant `k` and schedule
word `w`. -/
def round (s : ShaState) (kw : Nat × Nat) : ShaState :=
  let t1 := mod32 (s.h + sigmaBig1 s.e + ((s.e &&& s.f) ^^^ (not32 s.e &&& s.g))
                    + kw.1 + kw.2)
  let t2 := mod32 (sigmaBig0 s.a + ((s.a &&& s.b) ^^^ (s.a &&& s.c) ^^^ (s.b &&& s.c)))
  ⟨mod32 (t1 + t2), s.a, s.b, s.c, mod32 (s.d + t1), s.e, s.f, s.g⟩

/-- Compress one 16-word block into the running hash value. -/
def compress (hs : List Nat) (block : List Nat) : List Nat :=
  let s0 := toState hs
  let s := (shaK.zip (schedule block)).foldl round s0
  [mod32 (s0.a + s.a), mod32 (s0.b + s.b), mod32 (s0.c + s.c), mod32 (s0.d + s.d),
   mod32 (s0.e + s.e), mod32 (s0.f + s.f), mod32 (s0.g + s.g), mod32 (s0.h + s.h)]

/-- SHA-256 of a byte string, as its 32 digest bytes. -/
def sha256 (msg : List Nat) : List Nat :=
  ((blocks16 (bytesToWords (padMessage msg))).foldl compress shaH0).flatMap wordBytes

/-- HMAC key normalisation: hash keys longer than the 64-byte block, then
zero-pad to exactly 64 bytes (RFC 2104). -/
def hmacKey (key : List Nat) : List Nat :=
  let k := if 64 < key.length then sha256 key else key
  k ++ List.replicate (64 - k.length) 0

/-- HMAC-SHA256 of a message under a key, as its 32 digest bytes: what
node's createHmac / update / digest chain computes. -/
def hmacSha256 (key msg : List Nat) : List Nat :=
  let k := hmacKey key
  sha256 ((k.map (fun b => b ^^^ 0x5c)) ++ sha256 ((k.map (fun b => b ^^^ 0x36)) ++ msg))

/-- Lowercase hex digit of a nibble, as an ASCII byte. -/
def hexDigit (n : Nat) : Nat := if n < 10 then 48 + n else 87 + n

/-- Lowercase hex encoding of a byte string, as ASCII bytes: the result of
node's digest with hex output. -/
def hexEncode (bs : List Nat) : List Nat :=
  bs.flatMap (fun b => [hexDigit (b / 16 % 16), hexDigit (b % 16)])

/-- The hex HMAC-SHA256 signature the service computes for a payload. -/
def hmacHex (secret payload : List Nat) : List Nat :=
  hexEncode (hmacSha256 secret payload)

/-- Embedded from `MercuryoService.verifyWebhookSignature` (mercuryo.ts
lines 81-88): compute the hex HMAC-SHA256 of the payload under the webhook
secret and compare it with the provided signature for plain equality. -/
def verifyWebhookSignature (webhookSecret payload signature : List Nat) : Bool :=
  hmacHex webhookSecret payload == signature

/-- Flip bit `i` (most-significant first within each byte) of a byte string. -/
def flipBit (bs : List Nat) (i : Nat) : List Nat :=
  bs.set (i / 8) (bs.getD (i / 8) 0 ^^^ (1 <<< (7 - i % 8)))

/-- A byte string consists only of ASCII lowercase hex digits. -/
def isLowerHexAscii (bs : List Nat) : Bool :=
  bs.all (fun b => (48 ≤ b && b ≤ 57) || (97 ≤ b && b ≤ 102))

/-- The two failure modes of webhook processing: a signature mismatch
(the security error thrown at mercuryo.ts line 97) and a JSON syntax
error escaping from the decode step. -/
inductive WebhookError where
  | invalidSignature
  | parseError
deriving Repr, DecidableEq

/-- A webhook body as the route hands it over: the source's `body: any` is
either the raw byte string or an already-decoded object. -/
inductive WebhookBody (α : Type) where
  | raw (bytes : List Nat)
  | obj (value : α)

/-- Embedded from mercuryo.ts line 94:
`typeof body === 'string' ? body : JSON.stringify(body)`. -/
def webhookPayload (stringify : α → List Nat) : WebhookBody α → List Nat
  | .raw bytes => bytes
  | .obj value => stringify value

/-- Embedded from `MercuryoService.parseWebhook` (mercuryo.ts lines
93-101).  `stringify` models `JSON.stringify` and `jsonParse` models
`JSON.parse`, with `none` standing for the SyntaxError it can throw; both
are parameters because the source delegates them to the JS runtime. -/
def parseWebhook (stringify : α → List Nat) (jsonParse : List Nat → Option α)
    (webhookSecret : List Nat) (body : WebhookBody α) (signature : List Nat) :
    Except WebhookError α :=
  if verifyWebhookSignature webhookSecret (webhookPayload stringify body) signature then
    match body with
    | .raw bytes =>
      match jsonParse bytes with
      | some value => .ok value
      | none => .error .parseError
    | .obj value => .ok value
  else
    .error .invalidSignature

theorem hexDigit_lower_aux (n : Nat) (h : n < 16) :
    ((48 ≤ hexDigit n && hexDigit n ≤ 57) || (97 ≤ hexDigit n && hexDigit n ≤ 102))
      = true := by
  interval_cases n <;> decide

theorem isLowerHexAscii_hexEncode (bs : List Nat) :
    isLowerHexAscii (hexEncode bs) = true := by
  unfold isLowerHexAscii hexEncode
  rw [List.all_eq_true]
  intro b hb
  rw [List.mem_flatMap] at hb
  obtain ⟨a, _, hmem⟩ := hb
  simp only [List.mem_cons, List.not_mem_nil, or_false] at hmem
  rcases hmem with rfl | rfl
  · exact hexDigit_lower_aux _ (by omega)
  · exact hexDigit_lower_aux _ (by omega)

/-- C1: `verifyWebhookSignature payload signature` returns true iff the
signature equals the lowercase hex HMAC-SHA256 of the payload under the
configured webhook secret; any other signature (in particular any bit
flip of the correct one) is rejected, and any payload whose digest
differs (which is what a bit flip produces, barring an HMAC-SHA256
collision) is rejected against the original signature. -/
theorem C1_verifyWebhookSignature_correct (secret payload sig : List Nat) :
    (verifyWebhookSignature secret payload sig = true ↔ sig = hmacHex secret payload)
  ∧ isLowerHexAscii (hmacHex secret payload) = true
  ∧ (∀ sig2, verifyWebhookSignature secret payload sig = true → sig2 ≠ sig →
       verifyWebhookSignature secret payload sig2 = false)
  ∧ (∀ payload2, verifyWebhookSignature secret payload sig = true →
       hmacHex secret payload2 ≠ hmacHex secret payload →
       verifyWebhookSignature secret payload2 sig = false) := by
  refine ⟨?_, isLowerHexAscii_hexEncode _, ?_, ?_⟩
  · unfold verifyWebhookSignature
    rw [beq_iff_eq]
    exact eq_comm
  · intro sig2 h hne
    unfold verifyWebhookSignature at h ⊢
    rw [beq_iff_eq] at h
    rw [beq_eq_false_iff_ne]
    exact fun he => hne (he.symm.trans h)
  · intro payload2 h hne
    unfold verifyWebhookSignature at h ⊢
    rw [beq_iff_eq] at h
    rw [beq_eq_false_iff_ne]
    exact fun he => hne (he.trans h.symm)

set_option maxRecDepth 1000000 in
/-- Witness for C1 at secret "key" and payload "a": the correct signature
verifies; flipping the first bit of the signature, or the first bit of the
payload, makes verification return false. -/
theorem C1_witness :
    verifyWebhookSignature [107, 101, 121] [97] (hmacHex [107, 101, 121] [97]) = true
  ∧ verifyWebhookSignature [107, 101, 121] [97]
      (flipBit (hmacHex [107, 101, 121] [97]) 0) = false
  ∧ verifyWebhookSignature [107, 101, 121] (flipBit [97] 0)
      (hmacHex [107, 101, 121] [97]) = false := by
  refine ⟨?_, ?_, ?_⟩
  · exact (C1_verifyWebhookSignature_correct [107, 101, 121] [97]
      (hmacHex [107, 101, 121] [97])).1.mpr rfl
  · exact (C1_verifyWebhookSignature_correct [107, 101, 121] [97]
      (hmacHex [107, 101, 121] [97])).2.2.1
      (flipBit (hmacHex [107, 101, 121] [97]) 0)
      ((C1_verifyWebhookSignature_correct [107, 101, 121] [97]
        (hmacHex [107, 101, 121] [97])).1.mpr rfl)
      (by decide)
  · exact (C1_verifyWebhookSignature_correct [107, 101, 121] [97]
      (hmacHex [107, 101, 121] [97])).2.2.2
      (flipBit [97] 0)
      ((C1_verifyWebhookSignature_correct [107, 101, 121] [97]
        (hmacHex [107, 101, 121] [97])).1.mpr rfl)
      (by decide)

/-- C2: `parseWebhook` verifies the signature first and fails closed: on a
signature mismatch it returns the security error for every possible JSON
decoder — in particular it never attempts to parse the body, well-formed
or not; on a match it returns the decoded settlement fields unchanged (an
object body as is, a string body through the decoder). -/
theorem C2_parseWebhook_fails_closed {α : Type} (stringify : α → List Nat)
    (secret : List Nat) (body : WebhookBody α) (sig : List Nat) :
    (verifyWebhookSignature secret (webhookPayload stringify body) sig = false →
       ∀ jsonParse, parseWebhook stringify jsonParse secret body sig
         = .error .invalidSignature)
  ∧ (verifyWebhookSignature secret (webhookPayload stringify body) sig = true →
       ∀ jsonParse,
         (∀ value, body = .obj value →
            parseWebhook stringify jsonParse secret body sig = .ok value)
       ∧ (∀ bytes value, body = .raw bytes → jsonParse bytes = some value →
            parseWebhook stringify jsonParse secret body sig = .ok value)) := by
  constructor
  · intro hfail jsonParse
    unfold parseWebhook
    rw [hfail]
    simp
  · intro hok jsonParse
    constructor
    · intro value hbody
      subst hbody
      unfold parseWebhook
      rw [hok]
      simp
    · intro bytes value hbody hparse
      subst hbody
      unfold parseWebhook
      rw [hok]
      simp [hparse]

set_option maxRecDepth 1000000 in
/-- Witness for C2 at secret "key" and the raw body "a": the empty
signature is rejected with the security error even though the decoder
would fail on the body, and the correct signature yields the decoded
value. -/
theorem C2_witness :
    parseWebhook (fun _ : Nat => []) (fun _ => none) [107, 101, 121]
      (.raw [97]) [] = .error .invalidSignature
  ∧ parseWebhook (fun _ : Nat => []) (fun _ => some 7) [107, 101, 121]
      (.raw [97]) (hmacHex [107, 101, 121] [97]) = .ok 7 := by
  constructor
  · exact (C2_parseWebhook_fails_closed (fun _ : Nat => []) [107, 101, 121]
      (.raw [97]) []).1 (by decide) (fun _ => none)
  · exact ((C2_parseWebhook_fails_closed (fun _ : Nat => []) [107, 101, 121]
      (.raw [97]) (hmacHex [107, 101, 121] [97])).2 (by decide)
      (fun _ => some 7)).2 [97] 7 rfl rfl

/-- C10: `parseWebhook` accepts an already-decoded object body; for such a
body the signature is verified over `JSON.stringify(body)` — the original
raw request bytes play no role — and on success the very same object is
returned; the decoder is never consulted for an object body, and a string
body is decoded only when verification succeeds. -/
theorem C10_parseWebhook_object_body {α : Type} (stringify : α → List Nat)
    (jsonParse : List Nat → Option α) (secret : List Nat) (o : α) (sig : List Nat) :
    (parseWebhook stringify jsonParse secret (.obj o) sig
       = if verifyWebhookSignature secret (stringify o) sig then .ok o
         else .error .invalidSignature)
  ∧ (∀ jp jp' : List Nat → Option α,
       parseWebhook stringify jp secret (.obj o) sig
         = parseWebhook stringify jp' secret (.obj o) sig)
  ∧ (∀ bytes, verifyWebhookSignature secret bytes sig = false →
       parseWebhook stringify jsonParse secret (.raw bytes) sig
         = .error .invalidSignature) := by
  refine ⟨?_, ?_, ?_⟩
  · unfold parseWebhook webhookPayload
    split <;> rfl
  · intro jp jp'
    unfold parseWebhook webhookPayload
    split <;> rfl
  · intro bytes hfail
    unfold parseWebhook webhookPayload
    rw [hfail]
    simp

set_option maxRecDepth 1000000 in
/-- Witness for C10 at secret "key": an object body stringifying to "a"
is returned unchanged under the signature computed over that
stringification, even though the decoder rejects everything; and a raw
body with a wrong signature is rejected without decoding. -/
theorem C10_witness :
    parseWebhook (fun _ : Nat => [97]) (fun _ => none) [107, 101, 121]
      (.obj 5) (hmacHex [107, 101, 121] [97]) = .ok 5
  ∧ parseWebhook (fun _ : Nat => [97]) (fun _ => none) [107, 101, 121]
      (.raw [98]) (hmacHex [107, 101, 121] [97]) = .error .invalidSignature := by
  constructor
  · have h := (C10_parseWebhook_object_body (fun _ : Nat => [97]) (fun _ => none)
      [107, 101, 121] 5 (hmacHex [107, 101, 121] [97])).1
    rw [h]
    rw [if_pos ?side]
    case side =>
      exact (C1_verifyWebhookSignature_correct [107, 101, 121] [97]
        (hmacHex [107, 101, 121] [97])).1.mpr rfl
  · exact (C10_parseWebhook_object_body (fun _ : Nat => [97]) (fun _ => none)
      [107, 101, 121] 5 (hmacHex [107, 101, 121] [97])).2.2 [98] (by decide)

end Mercuryo

namespace Marzban

/-- Modelled from the spec: the Panel Client session — the bearer
credential and its expiry instant in milliseconds (the panel client source
file is not in the source tree; §3 of the spec defines this record). -/
structure Session where
  token : Option String
  expiry : Nat
deriving Repr, DecidableEq

/-- Modelled from the spec: authentication errors cite the attempt count
and the last underlying error (§4.1). -/
structure AuthError where
  attempts : Nat
  lastError : String
deriving Repr, DecidableEq

/-- Modelled from the spec: exponential backoff starting at 1000 ms for
the i-th failed attempt (§4.1). -/
def backoffDelay (i : Nat) : Nat := 1000 * 2 ^ i

/-- Modelled from the spec: tokens are refreshed one hour before their
24-hour validity ends, so the stored lifetime is 23 hours (§4.1). -/
def tokenLifetimeMs : Nat := 23 * 60 * 60 * 1000

/-- Trace of one `authenticate()` run: its outcome, the backoff delays
slept, and how many token-exchange attempts were issued. -/
structure AuthTrace where
  result : Except AuthError String
  delays : List Nat
  attempts : Nat
deriving Repr

/-- Modelled from the spec: the retry loop of `authenticate()` — at most
`remaining` further token-exchange attempts, `used` attempts already
failed, the last error so far.  `oracle i` is the outcome the remote
token exchange gives the i-th attempt. -/
def authLoop (oracle : Nat → Except String String) :
    Nat → Nat → String → AuthTrace
  | 0, used, lastErr => ⟨.error ⟨used, lastErr⟩, [], 0⟩
  | remaining + 1, used, _ =>
    match oracle used with
    | .ok tok => ⟨.ok tok, [], 1⟩
    | .error e =>
      let t := authLoop oracle remaining (used + 1) e
      ⟨t.result, backoffDelay used :: t.delays, t.attempts + 1⟩

/-- Modelled from the spec: `authenticate()` — up to 3 attempts total with
exponential backoff from 1000 ms; on success stores the bearer credential
with expiry now + 23 h; after exhausting the retries raises an
authentication error citing the attempt count and last error, leaving the
session unchanged (§4.1). -/
def authenticate (oracle : Nat → Except String String) (now : Nat)
    (s : Session) : AuthTrace × Session :=
  let t := authLoop oracle 3 0 ""
  match t.result with
  | .ok tok => (t, ⟨some tok, now + tokenLifetimeMs⟩)
  | .error _ => (t, s)

/-- Outcome of one panel HTTP call, as the retry logic discriminates
them: success, 401, another 4xx, a 5xx, or a timeout. -/
inductive HttpResult (α : Type) where
  | ok (v : α)
  | unauthorized
  | clientError (code : Nat)
  | serverError (code : Nat)
  | timeout

/-- Request-level failures: an exhausted authentication handshake, a 401
persisting after the single re-authentication and replay, a propagated
HTTP status, or a propagated timeout. -/
inductive ReqError where
  | authFailure (e : AuthError)
  | stillUnauthorized
  | httpError (code : Nat)
  | timeoutError
deriving Repr, DecidableEq

/-- The failures that surface as authentication errors rather than plain
transport errors. -/
def ReqError.isAuthenticationError : ReqError → Bool
  | .authFailure _ => true
  | .stillUnauthorized => true
  | _ => false

/-- Trace of one `request` run: the outcome, how many HTTP calls were
issued, how many authentication handshakes ran, the request-level backoff
delays slept (the handshakes' own backoff is accounted inside
`authenticate`), and the final session. -/
structure ReqTrace (α : Type) where
  result : Except ReqError α
  httpCalls : Nat
  authCalls : Nat
  delays : List Nat
  session : Session

/-- Modelled from the spec: the bounded retry loop of `request` (§4.1
steps 2-4).  `remaining` attempts are left of the 3 total; `calls` and
`auths` count the HTTP calls and handshakes already issued; `ds` holds the
delays slept so far, most recent first.  `reqOracle i` is the outcome of
the i-th HTTP issue of this request; `authOracle h` is the token-exchange
oracle of the h-th handshake.  A 401 triggers exactly one
re-authentication and one replay; a second 401 propagates as an
authentication error.  A 5xx or timeout is retried with backoff while
attempts remain; any other 4xx propagates immediately. -/
def requestLoop (reqOracle : Nat → HttpResult α)
    (authOracle : Nat → Nat → Except String String) (now : Nat) :
    Nat → Nat → Nat → Session → List Nat → ReqTrace α
  | 0, calls, auths, s, ds => ⟨.error .timeoutError, calls, auths, ds.reverse, s⟩
  | remaining + 1, calls, auths, s, ds =>
    match reqOracle calls with
    | .ok v => ⟨.ok v, calls + 1, auths, ds.reverse, s⟩
    | .clientError code => ⟨.error (.httpError code), calls + 1, auths, ds.reverse, s⟩
    | .unauthorized =>
      let ts := authenticate (authOracle auths) now s
      match ts.1.result with
      | .error e => ⟨.error (.authFailure e), calls + 1, auths + 1, ds.reverse, ts.2⟩
      | .ok _ =>
        match reqOracle (calls + 1) with
        | .ok v => ⟨.ok v, calls + 2, auths + 1, ds.reverse, ts.2⟩
        | .unauthorized =>
            ⟨.error .stillUnauthorized, calls + 2, auths + 1, ds.reverse, ts.2⟩
        | .clientError code =>
            ⟨.error (.httpError code), calls + 2, auths + 1, ds.reverse, ts.2⟩
        | .serverError code =>
            if remaining = 0 then
              ⟨.error (.httpError code), calls + 2, auths + 1, ds.reverse, ts.2⟩
            else
              requestLoop reqOracle authOracle now remaining (calls + 2) (auths + 1)
                ts.2 (backoffDelay (2 - remaining) :: ds)
        | .timeout =>
            if remaining = 0 then
              ⟨.error .timeoutError, calls + 2, auths + 1, ds.reverse, ts.2⟩
            else
              requestLoop reqOracle authOracle now remaining (calls + 2) (auths + 1)
                ts.2 (backoffDelay (2 - remaining) :: ds)
    | .serverError code =>
        if remaining = 0 then
          ⟨.error (.httpError code), calls + 1, auths, ds.reverse, s⟩
        else
          requestLoop reqOracle authOracle now remaining (calls + 1) auths
            s (backoffDelay (2 - remaining) :: ds)
    | .timeout =>
        if remaining = 0 then
          ⟨.error .timeoutError, calls + 1, auths, ds.reverse, s⟩
        else
          requestLoop reqOracle authOracle now remaining (calls + 1) auths
            s (backoffDelay (2 - remaining) :: ds)

/-- Modelled from the spec: `request(method, path, body)` — first ensure
the session is valid (no credential, or expiry passed, triggers a
handshake; its failure propagates as an authentication error), then run
the bounded retry loop (§4.1 steps 1-4). -/
def request (reqOracle : Nat → HttpResult α)
    (authOracle : Nat → Nat → Except String String) (now : Nat)
    (s : Session) : ReqTrace α :=
  if s.token = none ∨ s.expiry ≤ now then
    let ts := authenticate (authOracle 0) now s
    match ts.1.result with
    | .error e => ⟨.error (.authFailure e), 0, 1, [], ts.2⟩
    | .ok _ => requestLoop reqOracle authOracle now 3 0 1 ts.2 []
  else
    requestLoop reqOracle authOracle now 3 0 0 s []

/-- Modelled from the spec: the module-scoped singleton — the cached
client promise, if construction has started, and how many authentication
handshakes have run.  Under the JS event loop the check-and-set in the
lazy constructor is atomic (there is no suspension between reading and
writing the cache), so each caller's first step is one atomic
transition (§4.1, §5, §9). -/
structure SingletonState where
  cached : Option Nat
  handshakes : Nat
deriving Repr, DecidableEq

/-- Modelled from the spec: one caller invoking the lazy constructor: if
a client promise is cached, await it; otherwise start the single
handshake, cache its promise, and await it.  Returns the identity of the
promise the caller receives. -/
def getClient (s : SingletonState) : SingletonState × Nat :=
  match s.cached with
  | some p => (s, p)
  | none => (⟨some s.handshakes, s.handshakes + 1⟩, s.handshakes)

/-- Modelled from the spec: `n` first-use callers interleaved in arrival
order; returns the final singleton state and the promise identity each
caller received. -/
def runCallers : Nat → SingletonState → SingletonState × List Nat
  | 0, s => (s, [])
  | n + 1, s =>
    let s2 := getClient s
    let rest := runCallers n s2.1
    (rest.1, s2.2 :: rest.2)

/-- Modelled from the spec: a remote panel account — username plus the
optional proxy identity (the vless UUID inside the panel's nested
proxies object); the other account fields play no role in the modelled
operations. -/
structure RemoteAccount where
  username : String
  vlessId : Option String
deriving Repr, DecidableEq

/-- Modelled from the spec: `getVlessConfig` — derive the connection
descriptor from the fetched account's proxy identity, host and port
(§4.1, §6); fail when the account has no proxy identity assigned. -/
def getVlessConfig (account : RemoteAccount) (host : String) (port : Nat) :
    Except String String :=
  match account.vlessId with
  | none => .error ("No VLESS configuration found for user " ++ account.username)
  | some id =>
    .ok ("vless://" ++ id ++ "@" ++ host ++ ":" ++ toString port ++
      "?encryption=none&flow=xtls-rprx-vision&security=tls&sni=" ++ host ++
      "&type=tcp&headerType=none#" ++ account.username)

/-- Modelled from the spec: how a fetch of a remote account can end —
success, a not-found response, or a network failure. -/
inductive FetchOutcome (α : Type) where
  | success (v : α)
  | notFound
  | networkFailure (msg : String)
deriving Repr, DecidableEq

/-- Modelled from the spec: `userExists` — true iff the fetch succeeded;
every failure, not-found and network alike, is coarsened to false.  The
function is total: it never throws (§4.1, §7). -/
def userExists (fetched : FetchOutcome RemoteAccount) : Bool :=
  match fetched with
  | .success _ => true
  | .notFound => false
  | .networkFailure _ => false

/-- Trace of one `getOrCreateUser` run: the outcome plus how many fetch
and create calls were issued. -/
structure ProvisionTrace (α : Type) where
  result : Except String α
  fetchCalls : Nat
  createCalls : Nat

/-- Modelled from the spec: `getOrCreateUser` — fetch once; on success
return the fetched account; on any fetch failure call create exactly
once and return its result, never retrying the fetch (§4.1).
`fetchOracle i` and `createOracle i` give the outcome of the i-th
fetch / create call. -/
def getOrCreateUser (fetchOracle createOracle : Nat → Except String RemoteAccount) :
    ProvisionTrace RemoteAccount :=
  match fetchOracle 0 with
  | .ok account => ⟨.ok account, 1, 0⟩
  | .error _ => ⟨createOracle 0, 1, 1⟩

/-- C4: `authenticate()` performs at most 3 attempts in every run; when
all three fail it sleeps the exponential backoff delays 1000 ms, 2000 ms
and 4000 ms, raises an authentication error citing 3 attempts and the
last underlying error, and leaves the bearer credential untouched. -/
theorem C4_authenticate_backoff (oracle : Nat → Except String String)
    (now : Nat) (s : Session) (e0 e1 e2 : String)
    (h0 : oracle 0 = .error e0) (h1 : oracle 1 = .error e1)
    (h2 : oracle 2 = .error e2) :
    (authenticate oracle now s).1.result = .error ⟨3, e2⟩
  ∧ (authenticate oracle now s).1.delays = [1000, 2000, 4000]
  ∧ (authenticate oracle now s).1.attempts = 3
  ∧ (authenticate oracle now s).2 = s
  ∧ (∀ oracle2 now2 s2, (authenticate oracle2 now2 s2).1.attempts ≤ 3) := by
  have key : authLoop oracle 3 0 "" = ⟨.error ⟨3, e2⟩, [1000, 2000, 4000], 3⟩ := by
    simp [authLoop, h0, h1, h2, backoffDelay]
  have keyA : authenticate oracle now s = (⟨.error ⟨3, e2⟩, [1000, 2000, 4000], 3⟩, s) := by
    unfold authenticate
    rw [key]
  refine ⟨by rw [keyA], by rw [keyA], by rw [keyA], by rw [keyA], ?_⟩
  intro o2 n2 s2
  cases ho0 : o2 0 <;> cases ho1 : o2 1 <;> cases ho2 : o2 2 <;>
    simp [authenticate, authLoop, ho0, ho1, ho2]

/-- Witness for C4: an oracle that always fails with "boom" yields the
error citing 3 attempts and "boom", the delays 1 s, 2 s, 4 s, and an
unchanged session. -/
theorem C4_witness :
    (authenticate (fun _ => .error "boom") 5 ⟨none, 0⟩).1.result = .error ⟨3, "boom"⟩
  ∧ (authenticate (fun _ => .error "boom") 5 ⟨none, 0⟩).1.delays = [1000, 2000, 4000]
  ∧ (authenticate (fun _ => .error "boom") 5 ⟨none, 0⟩).1.attempts = 3
  ∧ (authenticate (fun _ => .error "boom") 5 ⟨none, 0⟩).2 = ⟨none, 0⟩ := by
  have h := C4_authenticate_backoff (fun _ => .error "boom") 5 ⟨none, 0⟩
    "boom" "boom" "boom" rfl rfl rfl
  exact ⟨h.1, h.2.1, h.2.2.1, h.2.2.2.1⟩

/-- C3: with a valid session, a request whose first call comes back
unauthorized triggers exactly one re-authentication and exactly one
replay; if the replay succeeds its value is returned, and if the replay
is again unauthorized the failure propagates as an authentication error
after exactly 2 HTTP calls and 1 handshake — no further
re-authentication, no loop. -/
theorem C3_request_single_replay_on_401 {α : Type} (reqOracle : Nat → HttpResult α)
    (authOracle : Nat → Nat → Except String String) (now : Nat) (s : Session)
    (tok tok2 : String)
    (hs : s.token = some tok) (hv : now < s.expiry)
    (h0 : reqOracle 0 = .unauthorized) (ha : authOracle 0 0 = .ok tok2) :
    (∀ v, reqOracle 1 = .ok v →
        (request reqOracle authOracle now s).result = .ok v
      ∧ (request reqOracle authOracle now s).httpCalls = 2
      ∧ (request reqOracle authOracle now s).authCalls = 1)
  ∧ (reqOracle 1 = .unauthorized →
        (request reqOracle authOracle now s).result = .error .stillUnauthorized
      ∧ ReqError.isAuthenticationError .stillUnauthorized = true
      ∧ (request reqOracle authOracle now s).httpCalls = 2
      ∧ (request reqOracle authOracle now s).authCalls = 1) := by
  have hcond : ¬(s.token = none ∨ s.expiry ≤ now) := by
    rw [hs]
    push_neg
    exact ⟨by simp, by omega⟩
  constructor
  · intro v h1
    have hr : request reqOracle authOracle now s
        = ⟨.ok v, 2, 1, [], ⟨some tok2, now + tokenLifetimeMs⟩⟩ := by
      unfold request
      rw [if_neg hcond]
      simp [requestLoop, h0, h1, ha, authenticate, authLoop]
    rw [hr]
    exact ⟨rfl, rfl, rfl⟩
  · intro h1
    have hr : request reqOracle authOracle now s
        = ⟨.error .stillUnauthorized, 2, 1, [], ⟨some tok2, now + tokenLifetimeMs⟩⟩ := by
      unfold request
      rw [if_neg hcond]
      simp [requestLoop, h0, h1, ha, authenticate, authLoop]
    rw [hr]
    exact ⟨rfl, rfl, rfl, rfl⟩

/-- Witness for C3: a server that answers every call with 401 while the
token exchange succeeds makes the request fail as an authentication
error after exactly 2 HTTP calls and 1 handshake. -/
theorem C3_witness :
    (request (fun _ => (HttpResult.unauthorized : HttpResult Nat))
        (fun _ _ => .ok "t2") 5 ⟨some "t", 10⟩).result = .error .stillUnauthorized
  ∧ (request (fun _ => (HttpResult.unauthorized : HttpResult Nat))
        (fun _ _ => .ok "t2") 5 ⟨some "t", 10⟩).httpCalls = 2
  ∧ (request (fun _ => (HttpResult.unauthorized : HttpResult Nat))
        (fun _ _ => .ok "t2") 5 ⟨some "t", 10⟩).authCalls = 1 := by
  have h := (C3_request_single_replay_on_401
    (fun _ => (HttpResult.unauthorized : HttpResult Nat))
    (fun _ _ => .ok "t2") 5 ⟨some "t", 10⟩ "t" "t2" rfl (by decide) rfl rfl).2 rfl
  exact ⟨h.1, h.2.2.1, h.2.2.2⟩

/-- C6: with a valid session, a retryable failure (5xx or timeout) is
retried up to 3 attempts total with backoff delays 1 s then 2 s, and
still propagates after the final attempt; a non-retryable 4xx (other
than unauthorized, which has its own path) propagates immediately with
no retry and no delay; a retryable failure followed by success returns
the value. -/
theorem C6_request_retry_plan {α : Type} (reqOracle : Nat → HttpResult α)
    (authOracle : Nat → Nat → Except String String) (now : Nat) (s : Session)
    (tok : String) (hs : s.token = some tok) (hv : now < s.expiry) :
    (∀ code, reqOracle 0 = .serverError code → reqOracle 1 = .serverError code →
        reqOracle 2 = .serverError code →
        (request reqOracle authOracle now s).result = .error (.httpError code)
      ∧ (request reqOracle authOracle now s).httpCalls = 3
      ∧ (request reqOracle authOracle now s).delays = [1000, 2000]
      ∧ (request reqOracle authOracle now s).authCalls = 0)
  ∧ (reqOracle 0 = .timeout → reqOracle 1 = .timeout → reqOracle 2 = .timeout →
        (request reqOracle authOracle now s).result = .error .timeoutError
      ∧ (request reqOracle authOracle now s).httpCalls = 3
      ∧ (request reqOracle authOracle now s).delays = [1000, 2000])
  ∧ (∀ code, reqOracle 0 = .clientError code →
        (request reqOracle authOracle now s).result = .error (.httpError code)
      ∧ (request reqOracle authOracle now s).httpCalls = 1
      ∧ (request reqOracle authOracle now s).delays = [])
  ∧ (∀ code v, reqOracle 0 = .serverError code → reqOracle 1 = .ok v →
        (request reqOracle authOracle now s).result = .ok v
      ∧ (request reqOracle authOracle now s).httpCalls = 2
      ∧ (request reqOracle authOracle now s).delays = [1000]) := by
  have hcond : ¬(s.token = none ∨ s.expiry ≤ now) := by
    rw [hs]
    push_neg
    exact ⟨by simp, by omega⟩
  refine ⟨?_, ?_, ?_, ?_⟩
  · intro code h0 h1 h2
    have hr : request reqOracle authOracle now s
        = ⟨.error (.httpError code), 3, 0, [1000, 2000], s⟩ := by
      unfold request
      rw [if_neg hcond]
      simp [requestLoop, h0, h1, h2, backoffDelay]
    rw [hr]
    exact ⟨rfl, rfl, rfl, rfl⟩
  · intro h0 h1 h2
    have hr : request reqOracle authOracle now s
        = ⟨.error .timeoutError, 3, 0, [1000, 2000], s⟩ := by
      unfold request
      rw [if_neg hcond]
      simp [requestLoop, h0, h1, h2, backoffDelay]
    rw [hr]
    exact ⟨rfl, rfl, rfl⟩
  · intro code h0
    have hr : request reqOracle authOracle now s
        = ⟨.error (.httpError code), 1, 0, [], s⟩ := by
      unfold request
      rw [if_neg hcond]
      simp [requestLoop, h0]
    rw [hr]
    exact ⟨rfl, rfl, rfl⟩
  · intro code v h0 h1
    have hr : request reqOracle authOracle now s
        = ⟨.ok v, 2, 0, [1000], s⟩ := by
      unfold request
      rw [if_neg hcond]
      simp [requestLoop, h0, h1, backoffDelay]
    rw [hr]
    exact ⟨rfl, rfl, rfl⟩

/-- Witness for C6: a server answering 500 to every call makes the
request fail with that status after exactly 3 calls and the delays 1 s
then 2 s, with no handshake. -/
theorem C6_witness :
    (request (fun _ => (HttpResult.serverError 500 : HttpResult Nat))
        (fun _ _ => .ok "t2") 5 ⟨some "t", 10⟩).result = .error (.httpError 500)
  ∧ (request (fun _ => (HttpResult.serverError 500 : HttpResult Nat))
        (fun _ _ => .ok "t2") 5 ⟨some "t", 10⟩).httpCalls = 3
  ∧ (request (fun _ => (HttpResult.serverError 500 : HttpResult Nat))
        (fun _ _ => .ok "t2") 5 ⟨some "t", 10⟩).delays = [1000, 2000]
  ∧ (request (fun _ => (HttpResult.serverError 500 : HttpResult Nat))
        (fun _ _ => .ok "t2") 5 ⟨some "t", 10⟩).authCalls = 0 :=
  (C6_request_retry_plan (fun _ => (HttpResult.serverError 500 : HttpResult Nat))
    (fun _ _ => .ok "t2") 5 ⟨some "t", 10⟩ "t" rfl (by decide)).1 500 rfl rfl rfl

theorem runCallers_cached (n : Nat) :
    runCallers n ⟨some 0, 1⟩ = (⟨some 0, 1⟩, List.replicate n 0) := by
  induction n with
  | zero => rfl
  | succ k ih => simp [runCallers, getClient, ih, List.replicate]

/-- C5: for every positive number of concurrent first-use callers,
exactly one authentication handshake runs and every caller receives the
same client promise (identity 0), hence the same initialized client. -/
theorem C5_singleflight_construction (n : Nat) :
    (runCallers (n + 1) ⟨none, 0⟩).1.handshakes = 1
  ∧ (runCallers (n + 1) ⟨none, 0⟩).2 = List.replicate (n + 1) 0 := by
  have h : runCallers (n + 1) ⟨none, 0⟩ = (⟨some 0, 1⟩, 0 :: List.replicate n 0) := by
    simp [runCallers, getClient, runCallers_cached]
  rw [h]
  exact ⟨rfl, rfl⟩

/-- C7: for an account holding a proxy identity the connection
descriptor is exactly the specified URI — shown both schematically and
byte-exactly on the spec's example — and an account without a proxy
identity yields an error. -/
theorem C7_getVlessConfig_format (u host id : String) (p : Nat) :
    getVlessConfig ⟨u, some id⟩ host p
      = .ok ("vless://" ++ id ++ "@" ++ host ++ ":" ++ toString p ++
          "?encryption=none&flow=xtls-rprx-vision&security=tls&sni=" ++ host ++
          "&type=tcp&headerType=none#" ++ u)
  ∧ getVlessConfig ⟨u, none⟩ host p
      = .error ("No VLESS configuration found for user " ++ u)
  ∧ getVlessConfig ⟨"alice", some "abc-123"⟩ "vpn.example.com" 443
      = .ok "vless://abc-123@vpn.example.com:443?encryption=none&flow=xtls-rprx-vision&security=tls&sni=vpn.example.com&type=tcp&headerType=none#alice" := by
  exact ⟨rfl, rfl, rfl⟩

/-- C8: `userExists` is true exactly when the fetch succeeded; a
not-found response and a network failure both yield false and are
indistinguishable to the caller; the function is total, so it never
throws. -/
theorem C8_userExists_coarsens (f : FetchOutcome RemoteAccount) (m : String) :
    (userExists f = true ↔ ∃ v, f = .success v)
  ∧ userExists .notFound = false
  ∧ userExists (.networkFailure m) = false
  ∧ userExists (.networkFailure m) = userExists .notFound := by
  refine ⟨?_, rfl, rfl, rfl⟩
  cases f <;> simp [userExists]

/-- C9: `getOrCreateUser` returns the fetched account when the fetch
succeeds (no create); on any fetch failure it issues exactly one create,
returns the create's result, and never retries the fetch — exactly one
fetch in every run. -/
theorem C9_getOrCreateUser_fallback
    (fetchOracle createOracle : Nat → Except String RemoteAccount) :
    (∀ a, fetchOracle 0 = .ok a →
        getOrCreateUser fetchOracle createOracle = ⟨.ok a, 1, 0⟩)
  ∧ (∀ e, fetchOracle 0 = .error e →
        (getOrCreateUser fetchOracle createOracle).result = createOracle 0
      ∧ (getOrCreateUser fetchOracle createOracle).createCalls = 1
      ∧ (getOrCreateUser fetchOracle createOracle).fetchCalls = 1) := by
  constructor
  · intro a h
    unfold getOrCreateUser
    rw [h]
  · intro e h
    unfold getOrCreateUser
    rw [h]
    exact ⟨rfl, rfl, rfl⟩

/-- Witness for C9: a failing fetch and a create returning bob's account
give exactly the create's result with one fetch and one create. -/
theorem C9_witness :
    (getOrCreateUser (fun _ => .error "down")
        (fun _ => .ok ⟨"bob", some "id-1"⟩)).result = .ok ⟨"bob", some "id-1"⟩
  ∧ (getOrCreateUser (fun _ => .error "down")
        (fun _ => .ok ⟨"bob", some "id-1"⟩)).createCalls = 1
  ∧ (getOrCreateUser (fun _ => .error "down")
        (fun _ => .ok ⟨"bob", some "id-1"⟩)).fetchCalls = 1 := by
  have h := (C9_getOrCreateUser_fallback (fun _ => .error "down")
    (fun _ => .ok ⟨"bob", some "id-1"⟩)).2 "down" rfl
  exact ⟨h.1, h.2.1, h.2.2⟩

end Marzban
